import Mathlib

/-!
Shallow embedding of `zoom.py` (ablava/zoom), a batch script that processes
user actions (update / delete / listusers) against the Zoom HTTP API.

Modelling conventions:
* An HTTP call either yields a response (status code and body text) or raises a
  transport exception; `ApiResult.exn` stands for the raised exception.
* Each Python function is embedded as a Lean function over an environment of
  oracles (one per call site) describing how the remote API answers.
* A Python function that can let an exception escape returns
  `Except Unit α`: `.error ()` means the call raised out of the function.
* Each handler additionally records the network requests it issued (attempted
  requests are recorded even when the transport raises) and the successive
  values assigned to its local `result` variable, so that intermediate
  classifications that are later overwritten remain observable.
* The unbounded `while` loop of `listusers` is embedded with explicit fuel:
  a `none` outcome means the loop did not finish within the given fuel.
-/

namespace Zoom

/-- Outcome of one HTTP request: a response with status code and body text,
or a raised transport exception. -/
inductive ApiResult where
  | ok (status : Nat) (body : String) : ApiResult
  | exn : ApiResult
deriving DecidableEq, Repr

/-- A network request issued by the script, with its URL and (for mutating
requests) the JSON payload as an association list. -/
inductive Call where
  | get (url : String) : Call
  | patchJson (url : String) (payload : List (String × String)) : Call
  | putJson (url : String) (payload : List (String × String)) : Call
  | del (url : String) : Call
deriving DecidableEq, Repr

/-- Is `p` a prefix of `l`? (structural helper for the substring test). -/
def isPrefixChars : List Char → List Char → Bool
  | [], _ => true
  | _ :: _, [] => false
  | x :: xs, y :: ys => x == y && isPrefixChars xs ys

/-- Does `needle` occur somewhere in `hay`? -/
def containsChars (needle : List Char) : List Char → Bool
  | [] => isPrefixChars needle []
  | y :: ys => isPrefixChars needle (y :: ys) || containsChars needle ys

/-- Python substring test `needle in hay`. -/
def containsSub (hay needle : String) : Bool :=
  containsChars needle.data hay.data

/-- Python `str.split(sep)` for a one-character separator, on character
lists: `splitOnChar c l` is the list of the maximal `c`-free segments of `l`
(always nonempty; empty segments are kept, as in Python). -/
def splitOnChar (c : Char) : List Char → List (List Char)
  | [] => [[]]
  | x :: xs =>
    match splitOnChar c xs with
    | [] => [[]]
    | g :: gs => if x == c then [] :: g :: gs else (x :: g) :: gs

/-- `https://api.zoom.us/v2/users/` followed by the user address or id
(zoom.py lines 205, 209, 244, 297, 420). -/
def userUrl (s : String) : String := "https://api.zoom.us/v2/users/" ++ s

/-- Embedding of `findUserId(upn)` (zoom.py lines 409-448), applied to the
response `resp` the transport produces for `GET userUrl upn`.

* status 200, body without `upn` as a substring: `return False` (`.ok none`);
* status 200, body contains `upn`: split the body on commas, split the first
  piece on colons; if its first piece is `{"id"` the id is the second piece
  with double quotes removed; otherwise `id = False`. When the first piece is
  `{"id"` but there is no second piece, Python raises IndexError inside the
  `try`, the `except` block runs, and `return id` then raises
  UnboundLocalError because `id` was never assigned: `.error ()`.
* status 404 or any other status: `id = False` (`.ok none`).
* transport exception: the `except` block runs, and `return id` raises
  UnboundLocalError (`id` unassigned), so the exception escapes: `.error ()`.

Python `False` is embedded as `none`; an id string `s` as `some s`. -/
def findUserId (resp : ApiResult) (upn : String) : Except Unit (Option String) :=
  match resp with
  | .exn => .error ()
  | .ok status body =>
    if status == 200 then
      if !(containsSub body upn) then
        .ok none
      else
        let data := splitOnChar ',' body.data
        let id_lst := splitOnChar ':' (data.headD [])
        if id_lst.headD [] == "\x7b\"id\"".data then
          match id_lst.drop 1 with
          | [] => .error ()
          | v :: _ => .ok (some (String.mk (v.filter (fun ch => ch != '\"'))))
        else
          .ok none
    else if status == 404 then
      .ok none
    else
      .ok none

/-- Python truthiness of a `findUserId` return value: `False` and the empty
string are falsy, a nonempty id string is truthy. -/
def pyTruthy : Option String → Bool
  | none => false
  | some s => s != ""

/-- One entry of the parsed `users` array of a list page
(zoom.py lines 349-352); `type` already carries the `str(...)` conversion. -/
structure ZoomUser where
  id : String
  first_name : String
  last_name : String
  email : String
  type : String
  status : String
deriving DecidableEq, Repr

/-- The parsed JSON body of a 200 list-page response: the `users` array and
the `page_count` / `page_number` fields (Python ints). -/
structure PageData where
  users : List ZoomUser
  page_count : Int
  page_number : Int
deriving DecidableEq, Repr

/-- A list-page response at the parsed level: status code plus parsed body,
or a raised exception (transport failure or a body `json.loads` rejects). -/
inductive PageResult where
  | ok (status : Nat) (data : PageData) : PageResult
  | exn : PageResult
deriving DecidableEq, Repr

/-- Oracles for the remote API, one per call site of a single handler
invocation. `lookup` answers the resolver GET for a given address;
`listPage` answers the paged user-list GET for a given page number. -/
structure Env where
  lookup : String → ApiResult
  patchName : ApiResult
  putEmail : ApiResult
  patchType : ApiResult
  deleteUser : ApiResult
  listPage : Int → PageResult

/-- Observable outcome of one handler invocation: the returned result string
(or `.error ()` when an exception escapes the handler), the network requests
issued in order, and the successive values assigned to the local `result`
variable. -/
structure HandlerOut where
  res : Except Unit String
  calls : List Call
  results : List String
deriving Repr

/-- The 5 fields of `locals()` at the top of `update`, in parameter order
(zoom.py line 158). -/
def fieldList (username newusername loginDisabled givenName sn : String) :
    List (String × String) :=
  [("username", username), ("newusername", newusername),
   ("loginDisabled", loginDisabled), ("givenName", givenName), ("sn", sn)]

/-- The validation error string of `update` and `delete`
(zoom.py lines 166-167). -/
def missingMsg (f : String) : String :=
  "ERROR: Missing an expected input value for " ++ f ++ " in input file."

/-- The license step of `update` (zoom.py lines 230-264): choose type "1"
(basic) when `loginDisabled == "True"` else "2" (licensed), PATCH it, classify
204 as success. Runs both after a fall-through rename and when no rename was
requested; `calls` and `results` accumulate what the handler did before. -/
def licenseStep (env : Env) (id loginDisabled : String)
    (calls : List Call) (results : List String) : HandlerOut :=
  let type := if loginDisabled == "True" then "1" else "2"
  let calls := calls ++ [Call.patchJson (userUrl id) [("type", type)]]
  match env.patchType with
  | .exn =>
    let r := "ERROR: Could not update Zoom user."
    ⟨.ok r, calls, results ++ [r]⟩
  | .ok s _ =>
    let r := if s != 204 then "ERROR: could not update Zoom user."
             else "SUCCESS: user was updated in Zoom."
    ⟨.ok r, calls, results ++ [r]⟩

/-- Embedding of `update(username, newusername, loginDisabled, givenName, sn)`
(zoom.py lines 153-264).

* Validation: the first empty field (in parameter order) yields the missing
  message and no network call.
* Resolver: `findUserId` on `username + "@xyz.com"`; falsy → not-found error;
  an escaped exception from `findUserId` escapes `update` too (the call on
  line 173 is outside every `try`).
* Rename branch (`username != newusername`), inside a `try`: a truthy
  resolution of the new address → "already taken"; otherwise PATCH the name
  fields, then PUT the email, and test `response.status_code != 204` — the
  tested response is the PUT response, the PATCH response having been
  overwritten. Either call raising is caught on line 223 and returns the
  capitalised rename error.
* License step: always reached when the rename branch did not return. -/
def update (env : Env) (username newusername loginDisabled givenName sn : String) :
    HandlerOut :=
  match (fieldList username newusername loginDisabled givenName sn).find?
      (fun p => p.2 == "") with
  | some p =>
    let r := missingMsg p.1
    ⟨.ok r, [], [r]⟩
  | none =>
    let upn := username ++ "@" ++ "xyz.com"
    let calls1 := [Call.get (userUrl upn)]
    match findUserId (env.lookup upn) upn with
    | .error _ => ⟨.error (), calls1, []⟩
    | .ok none =>
      let r := "ERROR: user could not be found in Zoom!"
      ⟨.ok r, calls1, [r]⟩
    | .ok (some id) =>
      if id == "" then
        let r := "ERROR: user could not be found in Zoom!"
        ⟨.ok r, calls1, [r]⟩
      else if username != newusername then
        let upnew := newusername ++ "@" ++ "xyz.com"
        let calls2 := calls1 ++ [Call.get (userUrl upnew)]
        match findUserId (env.lookup upnew) upnew with
        | .error _ =>
          let r := "ERROR: Could not rename Zoom user."
          ⟨.ok r, calls2, [r]⟩
        | .ok v =>
          if pyTruthy v then
            let r := "ERROR: username already taken!"
            ⟨.ok r, calls2, [r]⟩
          else
            let calls3 := calls2 ++
              [Call.patchJson (userUrl id)
                [("first_name", givenName), ("last_name", sn)]]
            match env.patchName with
            | .exn =>
              let r := "ERROR: Could not rename Zoom user."
              ⟨.ok r, calls3, [r]⟩
            | .ok _ _ =>
              let calls4 := calls3 ++
                [Call.putJson (userUrl id ++ "/email") [("email", upnew)]]
              match env.putEmail with
              | .exn =>
                let r := "ERROR: Could not rename Zoom user."
                ⟨.ok r, calls4, [r]⟩
              | .ok s _ =>
                let r0 := if s != 204 then "ERROR: could not rename Zoom user."
                          else "SUCCESS: user was renamed in Zoom."
                licenseStep env id loginDisabled calls4 [r0]
      else
        licenseStep env id loginDisabled calls1 []

/-- Embedding of `delete(username)` (zoom.py lines 267-317): validate the one
field, resolve, DELETE, classify 204 as success; the resolver call on line 282
is outside every `try`, so an exception escaping `findUserId` escapes
`delete`. -/
def delete (env : Env) (username : String) : HandlerOut :=
  if username == "" then
    let r := "ERROR: Missing an expected input value for username in input file."
    ⟨.ok r, [], [r]⟩
  else
    let upn := username ++ "@" ++ "xyz.com"
    let calls1 := [Call.get (userUrl upn)]
    match findUserId (env.lookup upn) upn with
    | .error _ => ⟨.error (), calls1, []⟩
    | .ok none =>
      let r := "ERROR: user could not be found in Zoom!"
      ⟨.ok r, calls1, [r]⟩
    | .ok (some id) =>
      if id == "" then
        let r := "ERROR: user could not be found in Zoom!"
        ⟨.ok r, calls1, [r]⟩
      else
        let calls2 := calls1 ++ [Call.del (userUrl id)]
        match env.deleteUser with
        | .exn =>
          let r := "ERROR: Could not delete Zoom user."
          ⟨.ok r, calls2, [r]⟩
        | .ok s _ =>
          let r := if s != 204 then "ERROR: could not delete user in Zoom."
                   else "SUCCESS: user deleted in Zoom."
          ⟨.ok r, calls2, [r]⟩

/-- URL requested for one list page (zoom.py lines 335-336). -/
def pageUrl (p : Int) : String :=
  "https://api.zoom.us/v2/users?page_size=300&page_number=" ++ toString p

/-- The header line printed before the users of the first page
(zoom.py line 347). -/
def headerLine : String := "id,first_name,last_name,email,type,status"

/-- One printed user line (zoom.py lines 350-352). -/
def userLine (u : ZoomUser) : String :=
  u.id ++ "," ++ u.first_name ++ "," ++ u.last_name ++ "," ++ u.email ++ ","
    ++ u.type ++ "," ++ u.status

/-- The `while PagesLeft:` loop of `listusers` (zoom.py lines 333-358), with
explicit fuel. State: `pagesLeft` and `currentPage` (Python ints), the issued
calls, the printed lines, and the current value of `result`. Each iteration:
exit when `PagesLeft` is zero (falsy); GET the current page; non-200 sets the
error result and breaks; a raised exception is caught by the handler-level
`except` (line 360) which sets the generic error result; otherwise print the
header on page 1, print one line per user, advance `currentPage`, recompute
`PagesLeft = page_count - page_number` from the response body, and set the
success result. `none` means the fuel ran out, i.e. the loop had not
terminated after `fuel` guard evaluations. -/
def listusersGo (env : Int → PageResult) :
    Nat → Int → Int → List Call → List String → String →
    Option (String × List Call × List String)
  | 0, _, _, _, _, _ => none
  | fuel + 1, pagesLeft, currentPage, calls, lines, result =>
    if pagesLeft == 0 then
      some (result, calls, lines)
    else
      let calls := calls ++ [Call.get (pageUrl currentPage)]
      match env currentPage with
      | .exn =>
        some ("ERROR: Could not get the list of Zoom users.", calls, lines)
      | .ok status data =>
        if status != 200 then
          some ("ERROR: did not get list of Zoom users.", calls, lines)
        else
          let lines := lines ++
            (if currentPage == 1 then [headerLine] else []) ++
            data.users.map userLine
          listusersGo env fuel (data.page_count - data.page_number)
            (currentPage + 1) calls lines
            "SUCCESS: got the list of Zoom users."

/-- Embedding of `listusers()` (zoom.py lines 320-367): run the paging loop
from `currentPage = 1`, `PagesLeft = 1`. The result is the returned string,
the issued page requests in order, and the printed lines in order; `none`
means the loop ran out of fuel (non-termination). -/
def listusers (env : Int → PageResult) (fuel : Nat) :
    Option (String × List Call × List String) :=
  listusersGo env fuel 1 1 [] [] ""

/-- One entry of the `useractions` array of the input file (all fields read as
strings by `main`, zoom.py lines 112-122). -/
structure Row where
  action : String
  username : String
  newusername : String
  loginDisabled : String
  givenName : String
  sn : String
deriving DecidableEq, Repr

/-- The dispatch of `main` for one row (zoom.py lines 115-126): returns the
result string the handler produced, `.error ()` when an exception escaped the
handler, or `none` when `listusers` ran out of fuel. -/
def dispatch (env : Env) (fuel : Nat) (row : Row) : Option (Except Unit String) :=
  if row.action == "update" then
    some (update env row.username row.newusername row.loginDisabled
      row.givenName row.sn).res
  else if row.action == "delete" then
    some (delete env row.username).res
  else if row.action == "listusers" then
    (listusers env.listPage fuel).map (fun x => .ok x.1)
  else
    some (.ok "ERROR: Unrecognized action.")

/-- The `for row in reader["useractions"]:` loop of `main` (zoom.py lines
112-129), data rows only (the header row `action,username,result` is written
before the loop). `env i` describes the remote API during action `i`. Each
iteration writes `[row.action, row.username, result]`; an exception escaping a
handler propagates out of the `for` loop into the outer `except` of `main`
(line 135), so no row is written for that action and no later action runs:
the rows written so far are the whole output. `none` means a `listusers`
invocation ran out of fuel. -/
def mainLoop (env : Nat → Env) (fuel : Nat) :
    Nat → List Row → Option (List (List String))
  | _, [] => some []
  | i, row :: rest =>
    match dispatch (env i) fuel row with
    | none => none
    | some (.error _) => some []
    | some (.ok r) =>
      (mainLoop env fuel (i + 1) rest).map
        (fun tl => [row.action, row.username, r] :: tl)

/-- The data rows `main` writes to the output CSV for a given action list. -/
def writtenRows (env : Nat → Env) (fuel : Nat) (rows : List Row) :
    Option (List (List String)) :=
  mainLoop env fuel 0 rows

/-! Concrete test fixtures: response bodies and environments used to
instantiate the theorems below on concrete inputs. -/

/-- A well-formed lookup response body for address `upn` and user id `idv`:
`{"id":"<idv>","email":"<upn>"}`. -/
def okBody (upn idv : String) : String :=
  "\x7b\"id\":\"" ++ idv ++ "\",\"email\":\"" ++ upn ++ "\"\x7d"

/-- An API where every request raises a transport exception. -/
def envExn : Env :=
  { lookup := fun _ => .exn, patchName := .exn, putEmail := .exn,
    patchType := .exn, deleteUser := .exn, listPage := fun _ => .exn }

/-- An API where `alice@xyz.com` resolves to id `id1`, no other address
resolves, the name PATCH fails with status 500 but the email PUT and the
license PATCH succeed with 204. -/
def env3 : Env :=
  { lookup := fun s =>
      if s == "alice@xyz.com" then .ok 200 (okBody "alice@xyz.com" "id1")
      else .ok 404 "",
    patchName := .ok 500 "",
    putEmail := .ok 204 "",
    patchType := .ok 204 "",
    deleteUser := .ok 204 "",
    listPage := fun _ => .exn }

/-- An API where `alice@xyz.com` resolves to id `id1`, no other address
resolves, the name PATCH succeeds, the email PUT fails with status 500, and
the license PATCH succeeds with 204. -/
def env4 : Env :=
  { lookup := fun s =>
      if s == "alice@xyz.com" then .ok 200 (okBody "alice@xyz.com" "id1")
      else .ok 404 "",
    patchName := .ok 204 "",
    putEmail := .ok 500 "",
    patchType := .ok 204 "",
    deleteUser := .ok 204 "",
    listPage := fun _ => .exn }

/-- An API where every address resolves (to id `id9`) and every mutating call
succeeds with 204. -/
def envBoth : Env :=
  { lookup := fun s => .ok 200 (okBody s "id9"),
    patchName := .ok 204 "",
    putEmail := .ok 204 "",
    patchType := .ok 204 "",
    deleteUser := .ok 204 "",
    listPage := fun _ => .exn }

/-- A sample user record for list pages. -/
def sampleUser : ZoomUser := ⟨"i1", "f", "l", "e", "1", "active"⟩

/-- A paged list API reporting `page_count = 3` on every page, echoing the
requested page number, with one user per page. -/
def envPages : Int → PageResult := fun p => .ok 200 ⟨[sampleUser], 3, p⟩

/-- A paged list API reporting `page_count = 0` on every page (status 200,
echoing the requested page number). -/
def envZero : Int → PageResult := fun p => .ok 200 ⟨[], 0, p⟩

/-- A delete action row for user `u`, as `main` reads it from the input. -/
def rowDel (u : String) : Row := ⟨"delete", u, u, "False", "A", "B"⟩

/-- Claim C1 (code bug): the spec says every error inside a handler is caught
at the handler boundary and converted to a result string, but when the
transport raises during the resolver lookup, `findUserId` reaches `return id`
with `id` unassigned and raises UnboundLocalError; `update` and `delete`
invoke `findUserId` outside every `try`, so the exception escapes the handler
(`res = .error ()`) instead of becoming a result string. -/
theorem update_delete_exception_escapes_handler :
    envExn.lookup "alice@xyz.com" = .exn ∧
    (update envExn "alice" "alice" "False" "G" "S").res = .error () ∧
    (delete envExn "bob").res = .error () :=
  ⟨rfl, rfl, rfl⟩

/-- Claim C2 (code bug): with two delete actions and a transport exception
during the first resolver lookup, the exception escapes the handler, the outer
`except` of `main` ends the batch, and zero data rows are written for the two
input actions — not one row per action. -/
theorem mainLoop_aborts_batch_on_exception :
    [rowDel "u1", rowDel "u2"].length = 2 ∧
    writtenRows (fun _ => envExn) 1 [rowDel "u1", rowDel "u2"] = some [] :=
  ⟨rfl, rfl⟩

/-- Claim C3, counterexample: in the rename branch the name-PATCH response is
overwritten by the email-PUT response before the 204 check, so a PATCH that
fails with 500 while the PUT returns 204 is still classified as a rename
success — refuting that a non-204 on either call yields an error. -/
theorem update_rename_patch_status_ignored_cex :
    env3.patchName = .ok 500 "" ∧ env3.putEmail = .ok 204 "" ∧
    (update env3 "alice" "bob" "False" "G" "S").results.head? =
      some "SUCCESS: user was renamed in Zoom." :=
  ⟨rfl, rfl, rfl⟩

/-- Claim C3, amended: for an update whose fields pass validation, with
`newusername` different from `username`, the current handle resolving to a
nonempty id, the new handle not resolving, and neither rename call raising,
the rename issues the two sequential calls (PATCH of first/last name, then
PUT of email) followed by the license PATCH; the rename outcome is classified
as an error exactly when the email PUT returns a status other than 204 —
the status of the name PATCH (`ps`, arbitrary here) is never examined. -/
theorem update_rename_put_status_decides (env : Env)
    (username newusername loginDisabled givenName sn i : String)
    (ps : Nat) (pb : String) (es : Nat) (eb : String)
    (hv : (fieldList username newusername loginDisabled givenName sn).find?
      (fun p => p.2 == "") = none)
    (hne : username ≠ newusername)
    (h1 : findUserId (env.lookup (username ++ "@" ++ "xyz.com"))
      (username ++ "@" ++ "xyz.com") = .ok (some i))
    (hi : i ≠ "")
    (h2 : findUserId (env.lookup (newusername ++ "@" ++ "xyz.com"))
      (newusername ++ "@" ++ "xyz.com") = .ok none)
    (hp : env.patchName = .ok ps pb)
    (hq : env.putEmail = .ok es eb) :
    (update env username newusername loginDisabled givenName sn).calls =
      [Call.get (userUrl (username ++ "@" ++ "xyz.com")),
       Call.get (userUrl (newusername ++ "@" ++ "xyz.com")),
       Call.patchJson (userUrl i) [("first_name", givenName), ("last_name", sn)],
       Call.putJson (userUrl i ++ "/email")
         [("email", newusername ++ "@" ++ "xyz.com")],
       Call.patchJson (userUrl i)
         [("type", if loginDisabled == "True" then "1" else "2")]] ∧
    (update env username newusername loginDisabled givenName sn).results.head? =
      some (if es != 204 then "ERROR: could not rename Zoom user."
            else "SUCCESS: user was renamed in Zoom.") := by
  have hib : (i == "") = false := beq_eq_false_iff_ne.mpr hi
  have hneb : (username != newusername) = true := bne_iff_ne.mpr hne
  cases hpt : env.patchType with
  | exn =>
    constructor <;>
      simp [update, licenseStep, hv, h1, h2, hp, hq, hpt, hib, hneb, pyTruthy]
  | ok s b =>
    constructor <;>
      simp [update, licenseStep, hv, h1, h2, hp, hq, hpt, hib, hneb, pyTruthy]

/-- Witness for `update_rename_put_status_decides` at a concrete input:
`env4` resolves `alice@xyz.com` to `id1`, fails the email PUT with 500 and
answers everything else with success. -/
theorem update_rename_put_status_decides_witness :
    (update env4 "alice" "bob" "False" "G" "S").calls =
      [Call.get (userUrl "alice@xyz.com"),
       Call.get (userUrl "bob@xyz.com"),
       Call.patchJson (userUrl "id1") [("first_name", "G"), ("last_name", "S")],
       Call.putJson (userUrl "id1" ++ "/email") [("email", "bob@xyz.com")],
       Call.patchJson (userUrl "id1") [("type", "2")]] ∧
    (update env4 "alice" "bob" "False" "G" "S").results.head? =
      some "ERROR: could not rename Zoom user." :=
  update_rename_put_status_decides env4 "alice" "bob" "False" "G" "S" "id1"
    204 "" 500 "" rfl (by decide) rfl (by decide) rfl rfl rfl

/-- Claim C4: when the rename branch runs without raising but the email PUT
returns non-204, `update` does not return early: the `result` variable first
holds the rename error, the license PATCH is still issued, and a 204 there
overwrites the result so that the returned outcome is
"SUCCESS: user was updated in Zoom.". -/
theorem update_license_overwrites_rename_error (env : Env)
    (username newusername loginDisabled givenName sn i : String)
    (ps : Nat) (pb : String) (es : Nat) (eb tb : String)
    (hv : (fieldList username newusername loginDisabled givenName sn).find?
      (fun p => p.2 == "") = none)
    (hne : username ≠ newusername)
    (h1 : findUserId (env.lookup (username ++ "@" ++ "xyz.com"))
      (username ++ "@" ++ "xyz.com") = .ok (some i))
    (hi : i ≠ "")
    (h2 : findUserId (env.lookup (newusername ++ "@" ++ "xyz.com"))
      (newusername ++ "@" ++ "xyz.com") = .ok none)
    (hp : env.patchName = .ok ps pb)
    (hq : env.putEmail = .ok es eb)
    (hes : es ≠ 204)
    (ht : env.patchType = .ok 204 tb) :
    (update env username newusername loginDisabled givenName sn).results =
      ["ERROR: could not rename Zoom user.",
       "SUCCESS: user was updated in Zoom."] ∧
    (update env username newusername loginDisabled givenName sn).res =
      .ok "SUCCESS: user was updated in Zoom." ∧
    Call.patchJson (userUrl i)
        [("type", if loginDisabled == "True" then "1" else "2")] ∈
      (update env username newusername loginDisabled givenName sn).calls := by
  have hib : (i == "") = false := beq_eq_false_iff_ne.mpr hi
  have hneb : (username != newusername) = true := bne_iff_ne.mpr hne
  have hesb : (es != 204) = true := bne_iff_ne.mpr hes
  refine ⟨?_, ?_, ?_⟩ <;>
    simp [update, licenseStep, hv, h1, h2, hp, hq, ht, hib, hneb, hesb,
      pyTruthy]

/-- Witness for `update_license_overwrites_rename_error` at a concrete input:
`env4` fails the email PUT with 500 but answers the license PATCH with 204. -/
theorem update_license_overwrites_rename_error_witness :
    (update env4 "alice" "bob" "False" "G" "S").results =
      ["ERROR: could not rename Zoom user.",
       "SUCCESS: user was updated in Zoom."] ∧
    (update env4 "alice" "bob" "False" "G" "S").res =
      .ok "SUCCESS: user was updated in Zoom." ∧
    Call.patchJson (userUrl "id1") [("type", "2")] ∈
      (update env4 "alice" "bob" "False" "G" "S").calls :=
  update_license_overwrites_rename_error env4 "alice" "bob" "False" "G" "S"
    "id1" 204 "" 500 "" "" rfl (by decide) rfl (by decide) rfl rfl rfl
    (by decide) rfl

/-- Claim C5: an update action with any of the 5 fields empty returns exactly
the missing-value error string naming an empty field, issues no network call,
and assigns `result` once. -/
theorem update_missing_field_no_calls (env : Env)
    (username newusername loginDisabled givenName sn : String)
    (h : username = "" ∨ newusername = "" ∨ loginDisabled = "" ∨
      givenName = "" ∨ sn = "") :
    ∃ f v, (f, v) ∈ fieldList username newusername loginDisabled givenName sn ∧
      v = "" ∧
      update env username newusername loginDisabled givenName sn =
        ⟨.ok (missingMsg f), [], [missingMsg f]⟩ := by
  have hex : ∃ p ∈ fieldList username newusername loginDisabled givenName sn,
      (p.2 == "") = true := by
    rcases h with h | h | h | h | h
    · exact ⟨("username", username), by simp [fieldList], by simp [h]⟩
    · exact ⟨("newusername", newusername), by simp [fieldList], by simp [h]⟩
    · exact ⟨("loginDisabled", loginDisabled), by simp [fieldList], by simp [h]⟩
    · exact ⟨("givenName", givenName), by simp [fieldList], by simp [h]⟩
    · exact ⟨("sn", sn), by simp [fieldList], by simp [h]⟩
  have hsome : ((fieldList username newusername loginDisabled givenName sn).find?
      (fun p => p.2 == "")).isSome := by
    rw [List.find?_isSome]
    exact hex
  obtain ⟨q, hq⟩ := Option.isSome_iff_exists.mp hsome
  have hmem : q ∈ fieldList username newusername loginDisabled givenName sn :=
    List.mem_of_find?_eq_some hq
  have hqe : q.2 = "" := by
    have := List.find?_some hq
    simpa using this
  refine ⟨q.1, q.2, ?_, hqe, ?_⟩
  · simpa using hmem
  · simp [update, hq]

/-- Witness for `update_missing_field_no_calls`: an update action whose
`givenName` field is empty. -/
theorem update_missing_field_no_calls_witness :
    ∃ f v, (f, v) ∈ fieldList "alice" "alice" "False" "" "S" ∧ v = "" ∧
      update envExn "alice" "alice" "False" "" "S" =
        ⟨.ok (missingMsg f), [], [missingMsg f]⟩ :=
  update_missing_field_no_calls envExn "alice" "alice" "False" "" "S"
    (Or.inr (Or.inr (Or.inr (Or.inl rfl))))

/-- Claim C6: for an update that passes validation, with `newusername`
different from `username`, the current handle resolving to a nonempty id and
the new handle also resolving to a nonempty id, `update` returns exactly
"ERROR: username already taken!" after the two resolver GETs, issuing neither
rename call nor the license PATCH. -/
theorem update_newusername_taken (env : Env)
    (username newusername loginDisabled givenName sn i j : String)
    (hv : (fieldList username newusername loginDisabled givenName sn).find?
      (fun p => p.2 == "") = none)
    (hne : username ≠ newusername)
    (h1 : findUserId (env.lookup (username ++ "@" ++ "xyz.com"))
      (username ++ "@" ++ "xyz.com") = .ok (some i))
    (hi : i ≠ "")
    (h2 : findUserId (env.lookup (newusername ++ "@" ++ "xyz.com"))
      (newusername ++ "@" ++ "xyz.com") = .ok (some j))
    (hj : j ≠ "") :
    update env username newusername loginDisabled givenName sn =
      ⟨.ok "ERROR: username already taken!",
       [Call.get (userUrl (username ++ "@" ++ "xyz.com")),
        Call.get (userUrl (newusername ++ "@" ++ "xyz.com"))],
       ["ERROR: username already taken!"]⟩ := by
  have hib : (i == "") = false := beq_eq_false_iff_ne.mpr hi
  have hjb : (j != "") = true := bne_iff_ne.mpr hj
  have hneb : (username != newusername) = true := bne_iff_ne.mpr hne
  simp [update, hv, h1, h2, hib, hjb, hneb, pyTruthy]

/-- Witness for `update_newusername_taken`: under `envBoth` every address
resolves, so renaming `alice` to `bob` reports the name as taken. -/
theorem update_newusername_taken_witness :
    update envBoth "alice" "bob" "False" "G" "S" =
      ⟨.ok "ERROR: username already taken!",
       [Call.get (userUrl "alice@xyz.com"),
        Call.get (userUrl "bob@xyz.com")],
       ["ERROR: username already taken!"]⟩ :=
  update_newusername_taken envBoth "alice" "bob" "False" "G" "S" "id9" "id9"
    rfl (by decide) rfl (by decide) rfl (by decide)

/-- Claim C7: along every path of `update`, a PATCH whose payload is a
single `type` binding carries "1" exactly when `loginDisabled` is the literal
string "True" and "2" otherwise (the only such PATCH is the license call;
the name PATCH has a different payload shape). -/
theorem update_license_type_payload (env : Env)
    (username newusername loginDisabled givenName sn url v : String)
    (hmem : Call.patchJson url [("type", v)] ∈
      (update env username newusername loginDisabled givenName sn).calls) :
    v = if loginDisabled == "True" then "1" else "2" := by
  cases hfv : (fieldList username newusername loginDisabled givenName sn).find?
      (fun p => p.2 == "") with
  | some p => simp [update, hfv] at hmem
  | none =>
  cases h1 : findUserId (env.lookup (username ++ "@" ++ "xyz.com"))
      (username ++ "@" ++ "xyz.com") with
  | error e => simp [update, hfv, h1] at hmem
  | ok o =>
  cases o with
  | none => simp [update, hfv, h1] at hmem
  | some s =>
  by_cases hs : s = ""
  · simp [update, hfv, h1, hs] at hmem
  · by_cases hne : username = newusername
    · subst hne
      cases ht : env.patchType with
      | exn =>
        simp only [update, licenseStep, hfv, h1, ht] at hmem
        simp [hs] at hmem
        simp_all
      | ok st tb =>
        simp only [update, licenseStep, hfv, h1, ht] at hmem
        simp [hs] at hmem
        simp_all
    · cases h2 : findUserId (env.lookup (newusername ++ "@" ++ "xyz.com"))
          (newusername ++ "@" ++ "xyz.com") with
      | error e2 => simp [update, hfv, h1, hs, hne, h2] at hmem
      | ok o2 =>
        by_cases htr : pyTruthy o2 = true
        · simp [update, hfv, h1, hs, hne, h2, htr] at hmem
        · cases hp : env.patchName with
          | exn => simp [update, hfv, h1, hs, hne, h2, htr, hp] at hmem
          | ok st1 b1 =>
            cases hq : env.putEmail with
            | exn =>
              simp [update, hfv, h1, hs, hne, h2, htr, hp, hq] at hmem
            | ok st2 b2 =>
              cases ht : env.patchType with
              | exn =>
                simp [update, licenseStep, hfv, h1, hs, hne, h2, htr, hp,
                  hq, ht] at hmem
                simp_all
              | ok st3 b3 =>
                simp [update, licenseStep, hfv, h1, hs, hne, h2, htr, hp,
                  hq, ht] at hmem
                simp_all

/-- Witness for `update_license_type_payload`: in the `env4` run for `alice`
the license PATCH payload is `type = "2"` and `loginDisabled` is "False". -/
theorem update_license_type_payload_witness :
    ("2" : String) = if ("False" : String) == "True" then "1" else "2" :=
  update_license_type_payload env4 "alice" "bob" "False" "G" "S"
    (userUrl "id1") "2" (by decide)

/-- Claim C8: when every page response has status 200, reports
`page_count = 3` and echoes the requested page number, `listusers` issues
exactly the 3 page requests with page numbers 1, 2, 3 (page size 300 in the
URL), prints the header line exactly once before the users of the first page, and
emits one line per user in per-page order — for any remaining fuel, so the
loop genuinely exits after the third page. -/
theorem listusers_three_pages (env : Int → PageResult)
    (us : Int → List ZoomUser)
    (h : ∀ p : Int, env p = .ok 200 ⟨us p, 3, p⟩) (fuel : Nat) :
    listusers env (fuel + 4) =
      some ("SUCCESS: got the list of Zoom users.",
        [Call.get (pageUrl 1), Call.get (pageUrl 2), Call.get (pageUrl 3)],
        headerLine :: ((us 1).map userLine ++ (us 2).map userLine ++
          (us 3).map userLine)) := by
  simp [listusers, listusersGo, h 1, h 2, h 3]

/-- Witness for `listusers_three_pages`: the `envPages` oracle with one user
per page and fuel 4. -/
theorem listusers_three_pages_witness :
    listusers envPages 4 =
      some ("SUCCESS: got the list of Zoom users.",
        [Call.get (pageUrl 1), Call.get (pageUrl 2), Call.get (pageUrl 3)],
        headerLine :: (List.map userLine [sampleUser] ++
          List.map userLine [sampleUser] ++ List.map userLine [sampleUser])) :=
  listusers_three_pages envPages (fun _ => [sampleUser]) (fun _ => rfl) 0

/-- Helper: from any state with a nonzero `PagesLeft` and a current page at
least 1, if every requested page answers 200, echoes the requested page
number and reports a `page_count` different from it, the loop never reaches
a zero `PagesLeft` and consumes all its fuel. -/
theorem listusersGo_none (env : Int → PageResult)
    (h : ∀ p : Int, 1 ≤ p → ∃ us pc, env p = .ok 200 ⟨us, pc, p⟩ ∧ pc ≠ p) :
    ∀ (fuel : Nat) (pagesLeft currentPage : Int) (calls : List Call)
      (lines : List String) (result : String), pagesLeft ≠ 0 →
      1 ≤ currentPage →
      listusersGo env fuel pagesLeft currentPage calls lines result = none := by
  intro fuel
  induction fuel with
  | zero => intro pl cp calls lines r hpl hcp; rfl
  | succ n ih =>
    intro pl cp calls lines r hpl hcp
    obtain ⟨us, pc, henv, hne⟩ := h cp hcp
    have hplb : (pl == 0) = false := beq_eq_false_iff_ne.mpr hpl
    simp only [listusersGo, hplb, henv, Bool.false_eq_true, if_false]
    simp only [bne_self_eq_false, Bool.false_eq_true, if_false]
    exact ih (pc - cp) (cp + 1) _ _ _ (sub_ne_zero.mpr hne) (by omega)

/-- Claim C9: the paging loop exits only when a 200 response reports
`page_count` equal to `page_number`, or on a non-200 status or exception;
when every response is 200, echoes the requested page number and reports a
`page_count` different from it — in particular `page_count = 0`, which makes
`PagesLeft` negative and hence truthy — `listusers` never terminates: it
returns `none` for every fuel. -/
theorem listusers_diverges_when_count_never_matches (env : Int → PageResult)
    (h : ∀ p : Int, 1 ≤ p → ∃ us pc, env p = .ok 200 ⟨us, pc, p⟩ ∧ pc ≠ p) :
    ∀ fuel : Nat, listusers env fuel = none := by
  intro fuel
  exact listusersGo_none env h fuel 1 1 [] [] "" one_ne_zero (le_refl 1)

/-- Witness for `listusers_diverges_when_count_never_matches`: the `envZero`
oracle reports `page_count = 0` on every page, and no amount of fuel (here
37) lets the loop finish. -/
theorem listusers_diverges_witness : listusers envZero 37 = none :=
  listusers_diverges_when_count_never_matches envZero
    (fun p hp => ⟨[], 0, rfl, by omega⟩) 37

/-- Claim C10: the resolver returns an id only on a 200 response whose body
contains the canonical address and whose first comma-segment starts with
`{"id"`; it reports the user absent on 404, on any other non-200 status, and
on a 200 response whose body does not contain the address. -/
theorem findUserId_classification (upn : String) :
    (∀ (status : Nat) (body i : String),
        findUserId (.ok status body) upn = .ok (some i) →
        status = 200 ∧ containsSub body upn = true ∧
        (splitOnChar ':' ((splitOnChar ',' body.data).headD [])).headD [] =
          "\x7b\"id\"".data) ∧
    (∀ body : String, findUserId (.ok 404 body) upn = .ok none) ∧
    (∀ (status : Nat) (body : String), status ≠ 200 → status ≠ 404 →
        findUserId (.ok status body) upn = .ok none) ∧
    (∀ body : String, containsSub body upn = false →
        findUserId (.ok 200 body) upn = .ok none) := by
  refine ⟨?_, ?_, ?_, ?_⟩
  · intro status body i hres
    simp only [findUserId] at hres
    split at hres
    case isTrue h200 =>
      split at hres
      case isTrue hnc => simp at hres
      case isFalse hnc =>
        split at hres
        case isTrue hhead =>
          split at hres
          case h_1 => simp at hres
          case h_2 v rest hdrop =>
            refine ⟨by simpa using h200, by simpa using hnc, ?_⟩
            simpa using hhead
        case isFalse hhead => simp at hres
    case isFalse h200 =>
      split at hres <;> simp at hres
  · intro body
    rfl
  · intro status body h1 h2
    have b1 : (status == 200) = false := beq_eq_false_iff_ne.mpr h1
    have b2 : (status == 404) = false := beq_eq_false_iff_ne.mpr h2
    simp [findUserId, b1, b2]
  · intro body hc
    simp [findUserId, hc]

/-- Witness for `findUserId_classification`: a 500 response is classified as
absent. -/
theorem findUserId_classification_witness :
    findUserId (.ok 500 "body") "alice@xyz.com" = .ok none :=
  (findUserId_classification "alice@xyz.com").2.2.1 500 "body"
    (by decide) (by decide)

end Zoom
